import Mathlib

/-!
Shallow embedding of the SNIP-20 reference token contract
(src/contract.rs) together with the storage, message and viewing-key
helpers it uses.  Stateful Rust code is embedded as explicit state
passing: every entry point takes a `ContractState` and returns the
result paired with the state after the call, so that storage writes
performed before an error return stay observable, exactly as they are
in the backing key-value store.

Modelling conventions:
- `u128` values are `Nat`; the only overflow check in the source is the
  `checked_add` in `perform_transfer`, embedded as `checkedAdd` with the
  explicit bound `2 ^ 128`.
- Canonical and human addresses are both `Nat`; the identity resolver
  (`deps.api.canonical_address`) is the identity and never fails, since
  address resolution is an external collaborator.
- `StdError::generic_err` messages are embedded as constructors of
  `ContractError` carrying the formatted arguments.
- Response bodies (`Binary`) are byte lists (`List Nat`).
- A Rust `panic` (an `unwrap` of `None`, for instance) is embedded as
  the `none` case of an `Option` result.
-/

set_option maxRecDepth 8000

/-- Decidable equality of fallible results, used to evaluate the
embedded operations at concrete inputs. -/
instance {ε α : Type} [DecidableEq ε] [DecidableEq α] : DecidableEq (Except ε α) := fun x y =>
  match x, y with
  | .ok a, .ok b => if h : a = b then .isTrue (by rw [h]) else .isFalse (by simp [h])
  | .error a, .error b => if h : a = b then .isTrue (by rw [h]) else .isFalse (by simp [h])
  | .ok _, .error _ => .isFalse (by simp)
  | .error _, .ok _ => .isFalse (by simp)

/-- Canonical (and human) account address, opaque to the contract. -/
abbrev Addr := Nat

/-- UTF-8 length in bytes of a string (`str::len` in Rust). -/
def utf8Len (s : String) : Nat := (s.data.map Char.utf8Size).sum

/-- Bytes of an ASCII string (`String::into_bytes`); characters are
ASCII in every use below, so the char codes are the UTF-8 bytes. -/
def strBytes (s : String) : List Nat := s.data.map Char.toNat

/-- Pointwise update of a total map, the embedding of a key-value write. -/
def updateFn (f : Addr → Nat) (k : Addr) (v : Nat) : Addr → Nat :=
  fun x => if x = k then v else f x

/-- Pointwise update of a two-key map (allowances). -/
def updateFn2 (f : Addr → Addr → Nat) (k1 k2 : Addr) (v : Nat) :
    Addr → Addr → Nat :=
  fun a b => if a = k1 ∧ b = k2 then v else f a b

/-- Pointwise update of an `Option`-valued map (viewing keys, hooks). -/
def updateOpt {α : Type} (f : Addr → Option α) (k : Addr) (v : α) :
    Addr → Option α :=
  fun x => if x = k then some v else f x

/-- The `u128` bound: `checked_add` fails at `2 ^ 128`. -/
def U128_BOUND : Nat := 2 ^ 128

/-- `u128::checked_add`: `none` exactly when the sum does not fit. -/
def checkedAdd (a b : Nat) : Option Nat :=
  if a + b < U128_BOUND then some (a + b) else none

/-- Native coin attached to a message (`cosmwasm_std::Coin`). -/
structure Coin where
  denom : String
  amount : Nat
deriving DecidableEq, Repr

/-- The part of `cosmwasm_std::Env` the contract reads. -/
structure Env where
  messageSender : Addr
  sentFunds : List Coin
  contractAddress : Addr
deriving DecidableEq, Repr

/-- Token constants (`state.rs::Constants`): name, symbol, decimals. -/
structure Constants where
  name : String
  symbol : String
  decimals : Nat
deriving DecidableEq, Repr

/-- One entry of the transfer history log (`store_transfer` arguments). -/
structure TransferRecord where
  sender : Addr
  receiver : Addr
  amount : Nat
  symbol : String
deriving DecidableEq, Repr

/-- The whole contract storage, split by namespace exactly as the
`state.rs` sub-views split the single backing store: balances, config
(constants and total supply), allowances, viewing keys, receiver hooks
and the per-account transfer log. -/
structure ContractState where
  balances : Addr → Nat
  totalSupply : Nat
  constants : Option Constants
  allowances : Addr → Addr → Nat
  viewingKeys : Addr → Option (List Nat)
  receiverHashes : Addr → Option String
  transfers : Addr → List TransferRecord

/-- Fresh storage: every namespace empty, every balance zero. -/
def emptyState : ContractState where
  balances := fun _ => 0
  totalSupply := 0
  constants := none
  allowances := fun _ _ => 0
  viewingKeys := fun _ => none
  receiverHashes := fun _ => none
  transfers := fun _ => []

/-- The `StdError::generic_err` values raised by `contract.rs`, one
constructor per call site, carrying the formatted arguments:
`insufficientFunds` is "Insufficient funds: balance=, required=" from
`perform_transfer`; `balanceOverflow` is the `checked_add` failure
message; `insufficientAllowance` is from `try_transfer_from`;
`insufficientFundsBurn` is the "insufficient funds to burn" message of
`try_withdraw` and `try_burn`; `invalidName`, `invalidSymbol` and
`invalidDecimals` are the three `init` validation errors;
`noFundsSent` is the `try_deposit` zero-amount error; `notInitialized`
is the `Config::constants()` failure when no constants are stored. -/
inductive ContractError where
  | insufficientFunds (balance required : Nat)
  | balanceOverflow
  | insufficientAllowance (allowance required : Nat)
  | insufficientFundsBurn (balance required : Nat)
  | invalidName
  | invalidSymbol
  | invalidDecimals
  | noFundsSent
  | notInitialized
deriving DecidableEq, Repr

/-- `msg.rs::ResponseStatus`. -/
inductive ResponseStatus where
  | success
  | failure
deriving DecidableEq, Repr

/-- `msg.rs::HandleAnswer`: the structured body serialized into
`response.data` by the handle branches that set one. -/
inductive HandleAnswer where
  | transfer (status : ResponseStatus)
  | send (status : ResponseStatus)
  | burn (status : ResponseStatus)
  | registerReceive (status : ResponseStatus)
  | createViewingKey (status : ResponseStatus)
  | setViewingKey (status : ResponseStatus)
deriving DecidableEq, Repr

/-- Modelled from the spec: `to_binary` of a `HandleAnswer`
(serialization lives in the missing `msg.rs`); each structured
`status` answer becomes a distinct non-empty byte string. -/
def toBinaryAnswer (a : HandleAnswer) : List Nat :=
  match a with
  | .transfer .success => strBytes "transfer status success"
  | .transfer .failure => strBytes "transfer status failure"
  | .send .success => strBytes "send status success"
  | .send .failure => strBytes "send status failure"
  | .burn .success => strBytes "burn status success"
  | .burn .failure => strBytes "burn status failure"
  | .registerReceive .success => strBytes "register receive status success"
  | .registerReceive .failure => strBytes "register receive status failure"
  | .createViewingKey .success => strBytes "create viewing key status success"
  | .createViewingKey .failure => strBytes "create viewing key status failure"
  | .setViewingKey .success => strBytes "set viewing key status success"
  | .setViewingKey .failure => strBytes "set viewing key status failure"

/-- Outbound effect descriptions returned to the host
(`cosmwasm_std::CosmosMsg`, restricted to the two variants built by
this contract). -/
inductive CosmosMsg where
  | bankSend (fromAddress : Addr) (toAddress : Addr) (amount : List Coin)
  | wasmExecute (msg : List Nat) (callbackCodeHash : String)
      (contractAddr : Addr) (send : List Coin)
deriving DecidableEq, Repr

/-- `cosmwasm_std::HandleResponse`; the log field is always `vec![]`
in this contract and is omitted. -/
structure HandleResponse where
  messages : List CosmosMsg
  data : Option (List Nat)
deriving DecidableEq, Repr

/-- One entry of `InitMsg::initial_balances`. -/
structure InitialBalance where
  address : Addr
  amount : Nat
deriving DecidableEq, Repr

/-- `msg.rs::InitMsg`. -/
structure InitMsg where
  name : String
  symbol : String
  decimals : Nat
  initialBalances : List InitialBalance
deriving DecidableEq, Repr

/-- `msg.rs::HandleMsg`, the state-changing request set routed by
`handle`. -/
inductive HandleMsg where
  | deposit
  | withdraw (amount : Nat)
  | balance
  | transfer (recipient : Addr) (amount : Nat)
  | send (recipient : Addr) (amount : Nat) (msg : List Nat)
  | burn (amount : Nat)
  | registerReceive (codeHash : String)
  | createViewingKey (entropy : List Nat)
  | setViewingKey (key : List Nat)
  | transferFrom (owner : Addr) (recipient : Addr) (amount : Nat)
  | allowance (spender : Addr)
  | approve (spender : Addr) (amount : Nat)
deriving DecidableEq, Repr

/-- `msg.rs::QueryMsg`, the authenticated read-only request set. -/
inductive QueryMsg where
  | balance (address : Addr) (key : List Nat)
  | transfers (address : Addr) (key : List Nat) (n : Nat) (start : Option Nat)
deriving DecidableEq, Repr

/-- Modelled from the spec: `QueryMsg::get_validation_params` (missing
`msg.rs`) returns the address and candidate viewing key of the
request. -/
def QueryMsg.getValidationParams : QueryMsg → Addr × List Nat
  | .balance address key => (address, key)
  | .transfers address key _ _ => (address, key)

/-! ## Storage helpers (`state.rs`, modelled from its contracts in the spec) -/

/-- Modelled from the spec: `Balances::account_amount` (missing
`state.rs`), balance lookup with default 0. -/
def accountAmount (balances : Addr → Nat) (account : Addr) : Nat :=
  balances account

/-- Modelled from the spec: `Balances::set_account_balance` (missing
`state.rs`), total replace of one balance entry. -/
def setAccountBalance (balances : Addr → Nat) (account : Addr) (amount : Nat) :
    Addr → Nat :=
  updateFn balances account amount

/-- Modelled from the spec: `read_allowance` (missing `state.rs`),
allowance lookup with default 0, no internal failure. -/
def readAllowance (st : ContractState) (owner spender : Addr) : Nat :=
  st.allowances owner spender

/-- Modelled from the spec: `write_allowance` (missing `state.rs`),
absolute replace of one allowance entry. -/
def writeAllowance (st : ContractState) (owner spender : Addr) (amount : Nat) :
    ContractState :=
  { st with allowances := updateFn2 st.allowances owner spender amount }

/-- Modelled from the spec: `read_viewing_key` (missing `state.rs`),
returns the stored key material for the account, if any. -/
def readViewingKey (st : ContractState) (account : Addr) : Option (List Nat) :=
  st.viewingKeys account

/-- Modelled from the spec: `write_viewing_key` (missing `state.rs`),
overwrite of the single key entry of the account. -/
def writeViewingKey (st : ContractState) (account : Addr) (key : List Nat) :
    ContractState :=
  { st with viewingKeys := updateOpt st.viewingKeys account key }

/-- Modelled from the spec: `get_receiver_hash` (missing `state.rs`),
returns the registered callback code hash of the account, if any. -/
def getReceiverHash (st : ContractState) (account : Addr) : Option String :=
  st.receiverHashes account

/-- Modelled from the spec: `set_receiver_hash` (missing `state.rs`),
overwrite of the single hook registration of the account. -/
def setReceiverHash (st : ContractState) (account : Addr) (codeHash : String) :
    ContractState :=
  { st with receiverHashes := updateOpt st.receiverHashes account codeHash }

/-- Modelled from the spec: `store_transfer` (missing `state.rs`)
appends one record of a completed transfer to the logs of both
parties, under a monotonically increasing position, oldest first. -/
def storeTransfer (st : ContractState) (sender receiver : Addr) (amount : Nat)
    (symbol : String) : ContractState :=
  let record : TransferRecord := ⟨sender, receiver, amount, symbol⟩
  let logs := fun a =>
    if a = sender ∨ a = receiver then st.transfers a ++ [record]
    else st.transfers a
  { st with transfers := logs }

/-- Modelled from the spec: `get_transfers` (missing `state.rs`)
returns the ordered slice of the account log from `start`, at most
`count` records, oldest first; a start beyond the log is empty. -/
def getTransfers (st : ContractState) (account : Addr) (start count : Nat) :
    List TransferRecord :=
  ((st.transfers account).drop start).take count

/-- `Config::constants()` / `ReadonlyConfig::constants()`: fails when
the constants entry is absent. -/
def getConstants (st : ContractState) : Except ContractError Constants :=
  match st.constants with
  | none => .error .notInitialized
  | some c => .ok c

/-! ## Viewing keys (`viewing_key.rs`, modelled from the spec) -/

/-- The fixed all-zero dummy value `[0u8; 24]` that `query` checks the
candidate against when no key is stored. -/
def dummyKey : List Nat := List.replicate 24 0

/-- Modelled from the spec: `ViewingKey::check_viewing_key` (missing
`viewing_key.rs`) compares the candidate key material against the
given stored material; the comparison is constant-time in the source,
which timing property is not modelled. -/
def checkViewingKey (candidate : List Nat) (material : List Nat) : Bool :=
  candidate == material

/-- Modelled from the spec: `ViewingKey::is_valid` (missing
`viewing_key.rs`), a surface format check: non-empty and inside a
length envelope. -/
def viewingKeyIsValid (key : List Nat) : Bool :=
  decide (0 < key.length) && decide (key.length ≤ 64)

/-- Modelled from the spec: `ViewingKey::new` (missing
`viewing_key.rs`) derives key material deterministically from the
domain-separation label, the entropy and request context. -/
def viewingKeyNew (env : Env) (label : List Nat) (entropy : List Nat) :
    List Nat :=
  label ++ entropy ++ [env.messageSender]

/-! ## `contract.rs` -/

/-- Responses from `handle` are padded to a multiple of this size. -/
def RESPONSE_BLOCK_SIZE : Nat := 256

/-- Modelled from the spec: `space_pad` (missing `msg.rs`) pads a
non-aligned message with spaces (byte 32) up to the next multiple of
the block size. -/
def spacePad (blockSize : Nat) (message : List Nat) : List Nat :=
  let surplus := message.length % blockSize
  if surplus = 0 then message
  else message ++ List.replicate (blockSize - surplus) 32

/-- `is_valid_name`: byte length between 3 and 30. -/
def is_valid_name (name : String) : Bool :=
  let len := utf8Len name
  decide (3 ≤ len) && decide (len ≤ 30)

/-- `is_valid_symbol`: byte length between 3 and 6, all bytes between
`A` and `Z`; for such strings the bytes are the char codes. -/
def is_valid_symbol (symbol : String) : Bool :=
  let len := utf8Len symbol
  let lenIsValid := decide (3 ≤ len) && decide (len ≤ 6)
  lenIsValid && symbol.data.all (fun c => decide (65 ≤ c.toNat) && decide (c.toNat ≤ 90))

/-- `to_display_token`; the rendering of the external
`cosmwasm_std::Decimal` built by `Decimal::from_ratio(amount, 10^decimals)`
is modelled as the whole and fractional parts joined by a dot. -/
def to_display_token (amount : Nat) (symbol : String) (decimals : Nat) : String :=
  let base : Nat := 10
  let denom := base ^ decimals
  toString (amount / denom) ++ "." ++ toString (amount % denom) ++ " " ++ symbol

/-- `perform_transfer`: debit `fromAddr` after the insufficient-funds
check, then credit `toAddr` under `checked_add`; the debit write is
already in the store when the overflow check runs, so the state paired
with a `balanceOverflow` error carries the debited `fromAddr` entry. -/
def perform_transfer (balances : Addr → Nat) (fromAddr toAddr : Addr)
    (amount : Nat) : Except ContractError Unit × (Addr → Nat) :=
  let fromBalance := accountAmount balances fromAddr
  if fromBalance < amount then
    (.error (.insufficientFunds fromBalance amount), balances)
  else
    let fromBalance := fromBalance - amount
    let balances := setAccountBalance balances fromAddr fromBalance
    let toBalance := accountAmount balances toAddr
    match checkedAdd toBalance amount with
    | none => (.error .balanceOverflow, balances)
    | some toBalance => (.ok (), setAccountBalance balances toAddr toBalance)

/-- `get_balance`: read the account balance and render it with the
stored symbol and decimals; fails when the constants are absent. -/
def get_balance (st : ContractState) (account : Addr) :
    Except ContractError String :=
  let accountBalance :=
    accountAmount st.balances account
  match getConstants st with
  | .error e => .error e
  | .ok consts =>
    .ok (to_display_token accountBalance consts.symbol consts.decimals)

/-- `try_transfer_impl`: `perform_transfer` from the message sender,
then read the symbol from the constants and append the transfer
record; a write performed before a later error stays in the state. -/
def try_transfer_impl (st : ContractState) (env : Env) (recipient : Addr)
    (amount : Nat) : Except ContractError Unit × ContractState :=
  let senderAddress := env.messageSender
  match perform_transfer st.balances senderAddress recipient amount with
  | (.error e, balances) => (.error e, { st with balances := balances })
  | (.ok (), balances) =>
    let st := { st with balances := balances }
    match getConstants st with
    | .error e => (.error e, st)
    | .ok consts =>
      (.ok (), storeTransfer st senderAddress recipient amount consts.symbol)

/-- `try_transfer`: transfer plus a `Transfer Success` data body. -/
def try_transfer (st : ContractState) (env : Env) (recipient : Addr)
    (amount : Nat) : Except ContractError HandleResponse × ContractState :=
  match try_transfer_impl st env recipient amount with
  | (.error e, st) => (.error e, st)
  | (.ok (), st) =>
    (.ok ⟨[], some (toBinaryAnswer (.transfer .success))⟩, st)

/-- `try_send`: transfer, then one callback-invocation effect when a
receiver hash is registered for the recipient, none otherwise. -/
def try_send (st : ContractState) (env : Env) (recipient : Addr)
    (amount : Nat) (msg : List Nat) :
    Except ContractError HandleResponse × ContractState :=
  match try_transfer_impl st env recipient amount with
  | (.error e, st) => (.error e, st)
  | (.ok (), st) =>
    let receiverHash := getReceiverHash st recipient
    let messages :=
      match receiverHash with
      | some receiverHash => [CosmosMsg.wasmExecute msg receiverHash recipient []]
      | none => []
    (.ok ⟨messages, some (toBinaryAnswer (.send .success))⟩, st)

/-- `try_register_receive`: store the hook code hash of the sender. -/
def try_register_receive (st : ContractState) (env : Env) (codeHash : String) :
    Except ContractError HandleResponse × ContractState :=
  let st := setReceiverHash st env.messageSender codeHash
  (.ok ⟨[], some (toBinaryAnswer (.registerReceive .success))⟩, st)

/-- `try_transfer_from`: check and decrement the allowance of
(owner, sender), persist it, then transfer from owner to recipient and
log it; the allowance write is already in the store when the transfer
runs, so a transfer failure leaves the decremented allowance in the
paired state. -/
def try_transfer_from (st : ContractState) (env : Env)
    (owner recipient : Addr) (amount : Nat) :
    Except ContractError HandleResponse × ContractState :=
  let spenderAddress := env.messageSender
  let allowance := readAllowance st owner spenderAddress
  if allowance < amount then
    (.error (.insufficientAllowance allowance amount), st)
  else
    let allowance := allowance - amount
    let st := writeAllowance st owner spenderAddress allowance
    match perform_transfer st.balances owner recipient amount with
    | (.error e, balances) => (.error e, { st with balances := balances })
    | (.ok (), balances) =>
      let st := { st with balances := balances }
      match getConstants st with
      | .error e => (.error e, st)
      | .ok consts =>
        let st := storeTransfer st owner recipient amount consts.symbol
        (.ok ⟨[], none⟩, st)

/-- `try_approve`: absolute overwrite of the allowance entry. -/
def try_approve (st : ContractState) (env : Env) (spender : Addr)
    (amount : Nat) : Except ContractError HandleResponse × ContractState :=
  let st := writeAllowance st env.messageSender spender amount
  (.ok ⟨[], none⟩, st)

/-- `try_check_allowance`: reads the allowance; both arms of the
source match return the identical empty response. -/
def try_check_allowance (st : ContractState) (env : Env) (spender : Addr) :
    Except ContractError HandleResponse × ContractState :=
  let _allowance := readAllowance st env.messageSender spender
  (.ok ⟨[], none⟩, st)

/-- `try_balance`: reads the sender balance; both arms of the source
match return the identical empty response. -/
def try_balance (st : ContractState) (env : Env) :
    Except ContractError HandleResponse × ContractState :=
  match get_balance st env.messageSender with
  | .error _ => (.ok ⟨[], none⟩, st)
  | .ok _ => (.ok ⟨[], none⟩, st)

/-- `try_deposit`: keep the amount of the last `uscrt` coin of the
sent funds, reject zero, credit the sender and grow the total supply. -/
def try_deposit (st : ContractState) (env : Env) :
    Except ContractError HandleResponse × ContractState :=
  let amount := env.sentFunds.foldl
    (fun acc coin => if coin.denom = "uscrt" then coin.amount else acc) 0
  if amount = 0 then
    (.error .noFundsSent, st)
  else
    let senderAddress := env.messageSender
    let accountBalance := accountAmount st.balances senderAddress + amount
    let st := { st with balances := setAccountBalance st.balances senderAddress accountBalance }
    let st := { st with totalSupply := st.totalSupply + amount }
    (.ok ⟨[], none⟩, st)

/-- `try_withdraw`: debit the sender after the balance check, shrink
the total supply and emit one native bank-send effect. -/
def try_withdraw (st : ContractState) (env : Env) (amount : Nat) :
    Except ContractError HandleResponse × ContractState :=
  let senderAddress := env.messageSender
  let accountBalance := accountAmount st.balances senderAddress
  if accountBalance < amount then
    (.error (.insufficientFundsBurn accountBalance amount), st)
  else
    let accountBalance := accountBalance - amount
    let st := { st with balances := setAccountBalance st.balances senderAddress accountBalance }
    let st := { st with totalSupply := st.totalSupply - amount }
    (.ok ⟨[CosmosMsg.bankSend env.contractAddress senderAddress [⟨"uscrt", amount⟩]], none⟩, st)

/-- `try_burn`: debit the sender after the balance check and shrink
the total supply; no effect emitted. -/
def try_burn (st : ContractState) (env : Env) (amount : Nat) :
    Except ContractError HandleResponse × ContractState :=
  let senderAddress := env.messageSender
  let accountBalance := accountAmount st.balances senderAddress
  if accountBalance < amount then
    (.error (.insufficientFundsBurn accountBalance amount), st)
  else
    let accountBalance := accountBalance - amount
    let st := { st with balances := setAccountBalance st.balances senderAddress accountBalance }
    let st := { st with totalSupply := st.totalSupply - amount }
    (.ok ⟨[], some (toBinaryAnswer (.burn .success))⟩, st)

/-- `try_set_key`: reject a key of invalid surface format with a
`Failure` status body and no mutation, otherwise overwrite the key of
the sender and answer `Success`. -/
def try_set_key (st : ContractState) (env : Env) (key : List Nat) :
    Except ContractError HandleResponse × ContractState :=
  if !(viewingKeyIsValid key) then
    (.ok ⟨[], some (toBinaryAnswer (.setViewingKey .failure))⟩, st)
  else
    let st := writeViewingKey st env.messageSender key
    (.ok ⟨[], some (toBinaryAnswer (.setViewingKey .success))⟩, st)

/-- `try_create_key`: derive a key from the entropy with the fixed
`yo` label, overwrite the key of the sender and answer `Success`. -/
def try_create_key (st : ContractState) (env : Env) (entropy : List Nat) :
    Except ContractError HandleResponse × ContractState :=
  let vk := viewingKeyNew env (strBytes "yo") entropy
  let st := writeViewingKey st env.messageSender vk
  (.ok ⟨[], some (toBinaryAnswer (.createViewingKey .success))⟩, st)

/-- The balance-writing loop of `init`: for each entry, in order,
overwrite the balance of its address and add its amount to the running
total supply. -/
def initBalancesLoop (acc : Nat × (Addr → Nat)) :
    List InitialBalance → Nat × (Addr → Nat)
  | [] => acc
  | balance :: rest =>
    initBalancesLoop
      (acc.1 + balance.amount,
        setAccountBalance acc.2 balance.address balance.amount) rest

/-- `init`: write every initial balance entry and accumulate the total
supply first, then validate name, symbol and decimals (an invalid
field rejects the request after those writes), then store the
constants and the total supply. -/
def init (st : ContractState) (msg : InitMsg) :
    Except ContractError Unit × ContractState :=
  let (totalSupply, balances) := initBalancesLoop (0, st.balances) msg.initialBalances
  let st := { st with balances := balances }
  if !(is_valid_name msg.name) then
    (.error .invalidName, st)
  else if !(is_valid_symbol msg.symbol) then
    (.error .invalidSymbol, st)
  else if msg.decimals > 18 then
    (.error .invalidDecimals, st)
  else
    let st := { st with constants := some ⟨msg.name, msg.symbol, msg.decimals⟩ }
    let st := { st with totalSupply := totalSupply }
    (.ok (), st)

/-- The dispatch match of `handle`, before response padding. -/
def handleDispatch (st : ContractState) (env : Env) (msg : HandleMsg) :
    Except ContractError HandleResponse × ContractState :=
  match msg with
  | .deposit => try_deposit st env
  | .withdraw amount => try_withdraw st env amount
  | .balance => try_balance st env
  | .transfer recipient amount => try_transfer st env recipient amount
  | .send recipient amount msg => try_send st env recipient amount msg
  | .burn amount => try_burn st env amount
  | .registerReceive codeHash => try_register_receive st env codeHash
  | .createViewingKey entropy => try_create_key st env entropy
  | .setViewingKey key => try_set_key st env key
  | .transferFrom owner recipient amount => try_transfer_from st env owner recipient amount
  | .allowance spender => try_check_allowance st env spender
  | .approve spender amount => try_approve st env spender amount

/-- `handle`: dispatch, then pad the data body of a successful
response to a multiple of `RESPONSE_BLOCK_SIZE`. -/
def handle (st : ContractState) (env : Env) (msg : HandleMsg) :
    Except ContractError HandleResponse × ContractState :=
  let (response, st) := handleDispatch st env msg
  (response.map (fun response =>
    { response with data := response.data.map (fun data => spacePad RESPONSE_BLOCK_SIZE data) }),
   st)

/-- `query_transactions`: slice the transfer log of the account and
render it; the debug rendering of the record list is modelled as the
bytes of its `toString`. -/
def query_transactions (st : ContractState) (account : Addr)
    (start count : Nat) : Except ContractError (List Nat) :=
  let txs := getTransfers st account start count
  .ok (strBytes (toString (txs.map (fun r => (r.sender, r.receiver, r.amount, r.symbol)))))

/-- `query_balance`: the rendered balance of the account as bytes. -/
def query_balance (st : ContractState) (account : Addr) :
    Except ContractError (List Nat) :=
  match get_balance st account with
  | .error e => .error e
  | .ok s => .ok (strBytes s)

/-- The generic denial body returned on an authentication failure,
identical at both return sites of `query`. -/
def wrongKeyResponse : List Nat :=
  strBytes "Wrong viewing key for this address or viewing key not set"

/-- `query`: fetch the stored viewing key of the requested account;
when none is stored AND the candidate fails against the all-zero dummy,
deny; otherwise unwrap the stored key (the `none` result embeds the
panic of `unwrap` on a missing key) and deny unless the candidate
checks against it; on success serve the balance or transfer query. -/
def query (st : ContractState) (msg : QueryMsg) :
    Option (Except ContractError (List Nat)) :=
  let (address, key) := msg.getValidationParams
  let expectedKey := readViewingKey st address
  if expectedKey.isNone && !(checkViewingKey key dummyKey) then
    some (.ok wrongKeyResponse)
  else
    match expectedKey with
    | none => none
    | some expectedKey =>
      if !(checkViewingKey key expectedKey) then
        some (.ok wrongKeyResponse)
      else
        some (match msg with
          | .balance address _ => query_balance st address
          | .transfers address _ n start => query_transactions st address (start.getD 0) n)

/-! ## Concrete states and messages used to evaluate the operations -/

/-- Write back every initial balance entry, in order (overwrite). -/
def applyInitialBalances (balances : Addr → Nat) :
    List InitialBalance → Addr → Nat
  | [] => balances
  | b :: rest => applyInitialBalances (setAccountBalance balances b.address b.amount) rest

/-- A balance map holding 3 units at account 0. -/
def w1bal : Addr → Nat := updateFn (fun _ => 0) 0 3

/-- A balance map holding 100 units at account 0 and the maximal
`u128` value at account 1. -/
def cb0 : Addr → Nat := updateFn (updateFn (fun _ => 0) 0 100) 1 (2 ^ 128 - 1)

/-- A state whose only entry is an allowance of 50 from owner 0 to
spender 1; every balance is 0. -/
def c2st : ContractState :=
  { emptyState with allowances := updateFn2 emptyState.allowances 0 1 50 }

/-- A request context with message sender 1 and no attached funds. -/
def c2env : Env := ⟨1, [], 99⟩

/-- An init message with a 2-byte (invalid) name and one initial
balance entry of 5 units at account 7. -/
def c3msg : InitMsg := ⟨"ab", "TST", 2, [⟨7, 5⟩]⟩

/-- A valid init message whose initial balance list repeats account 0:
first 100 units, then 50 units. -/
def c4msg : InitMsg := ⟨"Token", "TST", 2, [⟨0, 100⟩, ⟨0, 50⟩]⟩

/-- An initialized state with 100 units at account 0 and an allowance
of 50 from owner 0 to spender 1. -/
def c6st : ContractState :=
  { emptyState with
      balances := updateFn emptyState.balances 0 100,
      constants := some ⟨"Token", "TST", 2⟩,
      allowances := updateFn2 emptyState.allowances 0 1 50 }

/-- A request context with message sender 1 and no attached funds. -/
def c6env : Env := ⟨1, [], 99⟩

/-- A state whose only entry is the viewing key `[5, 5]` stored for
account 0. -/
def c7st : ContractState :=
  { emptyState with viewingKeys := updateOpt emptyState.viewingKeys 0 [5, 5] }

/-- A request context with message sender 0 and no attached funds. -/
def c8env : Env := ⟨0, [], 99⟩

/-- An initialized state with 10 units at account 0 and a receiver
hook registered for account 1. -/
def c9st : ContractState :=
  { emptyState with
      balances := updateFn emptyState.balances 0 10,
      constants := some ⟨"Token", "TST", 2⟩,
      receiverHashes := updateOpt emptyState.receiverHashes 1 "hash" }

/-- The response of a successful send to the hooked account 1. -/
def c9res : HandleResponse :=
  ⟨[CosmosMsg.wasmExecute [9] "hash" 1 []], some (toBinaryAnswer (.send .success))⟩

/-! ## Helper lemmas -/

/-- Padding always lands on a multiple of the response block size. -/
theorem spacePad_length_mod (m : List Nat) :
    (spacePad RESPONSE_BLOCK_SIZE m).length % RESPONSE_BLOCK_SIZE = 0 := by
  unfold spacePad RESPONSE_BLOCK_SIZE
  by_cases h : m.length % 256 = 0
  · simp [h]
  · simp only [h, if_neg, List.length_append, List.length_replicate, ite_false]
    omega

/-- An insufficient-funds failure of `perform_transfer` returns the
balance store untouched. -/
theorem perform_transfer_insufficient (balances : Addr → Nat)
    (fromAddr toAddr : Addr) (amount : Nat) (b r : Nat)
    (h : (perform_transfer balances fromAddr toAddr amount).fst
        = .error (.insufficientFunds b r)) :
    (perform_transfer balances fromAddr toAddr amount).snd = balances := by
  unfold perform_transfer accountAmount at *
  by_cases hlt : balances fromAddr < amount
  · simp [hlt]
  · simp only [hlt, if_neg, ite_false] at h
    rcases hadd : checkedAdd (setAccountBalance balances fromAddr (balances fromAddr - amount) toAddr) amount with _ | v <;>
      simp [hadd] at h

/-- An overflow failure of `perform_transfer` happens only between two
distinct accounts holding representable values, and it returns the
store with the sender already debited and the recipient untouched. -/
theorem perform_transfer_overflow (balances : Addr → Nat)
    (fromAddr toAddr : Addr) (amount : Nat)
    (hrep : ∀ a, balances a < U128_BOUND)
    (h : (perform_transfer balances fromAddr toAddr amount).fst = .error .balanceOverflow) :
    fromAddr ≠ toAddr
    ∧ (perform_transfer balances fromAddr toAddr amount).snd
        = setAccountBalance balances fromAddr (balances fromAddr - amount)
    ∧ (perform_transfer balances fromAddr toAddr amount).snd toAddr = balances toAddr
    ∧ (perform_transfer balances fromAddr toAddr amount).snd fromAddr
        = balances fromAddr - amount
    ∧ amount ≤ balances fromAddr ∧ 0 < amount := by
  unfold perform_transfer accountAmount at h ⊢
  by_cases hlt : balances fromAddr < amount
  · simp [hlt] at h
  · simp only [hlt, if_neg, ite_false] at h ⊢
    rcases hadd : checkedAdd (setAccountBalance balances fromAddr (balances fromAddr - amount) toAddr) amount with _ | v
    · -- checked_add returned none
      have hne : fromAddr ≠ toAddr := by
        intro heq
        rw [heq] at hadd hlt
        unfold checkedAdd at hadd
        simp [setAccountBalance, updateFn] at hadd
        have := hrep toAddr
        omega
      have hto : setAccountBalance balances fromAddr (balances fromAddr - amount) toAddr = balances toAddr := by
        simp [setAccountBalance, updateFn, Ne.symm hne]
      have hbound : U128_BOUND ≤ balances toAddr + amount := by
        unfold checkedAdd at hadd
        rw [hto] at hadd
        by_contra hc
        push_neg at hc
        simp [hc] at hadd
      refine ⟨hne, by simp [hadd], ?_, ?_, by omega, ?_⟩
      · simp [hadd, hto]
      · simp [hadd, setAccountBalance, updateFn]
      · have := hrep toAddr
        omega
    · simp [hadd] at h

/-- `perform_transfer` raises insufficient funds exactly when the
sender balance is below the requested amount. -/
theorem perform_transfer_insufficient_iff (balances : Addr → Nat)
    (fromAddr toAddr : Addr) (amount : Nat) :
    (∃ b r, (perform_transfer balances fromAddr toAddr amount).fst
        = .error (.insufficientFunds b r)) ↔ balances fromAddr < amount := by
  unfold perform_transfer accountAmount
  by_cases hlt : balances fromAddr < amount
  · simp [hlt]
  · simp only [hlt, if_neg, ite_false]
    rcases hadd : checkedAdd (setAccountBalance balances fromAddr (balances fromAddr - amount) toAddr) amount with _ | v <;>
      simp [hadd, hlt]

/-- In every branch past the allowance check, the allowance entry of
(owner, sender) in the resulting state holds the decremented value. -/
theorem try_transfer_from_allowances (st : ContractState) (env : Env)
    (owner recipient : Addr) (amount : Nat)
    (hlt : ¬ readAllowance st owner env.messageSender < amount) :
    ((try_transfer_from st env owner recipient amount).snd).allowances
      = updateFn2 st.allowances owner env.messageSender
          (readAllowance st owner env.messageSender - amount) := by
  unfold try_transfer_from
  simp only [hlt, ite_false]
  split
  · simp [writeAllowance]
  · split
    · simp [writeAllowance]
    · simp [writeAllowance, storeTransfer]

/-- The balance-writing loop of `init` computes the same balance map
as writing back each entry in order. -/
theorem initBalancesLoop_balances (l : List InitialBalance) :
    ∀ ts balances, (initBalancesLoop (ts, balances) l).2 = applyInitialBalances balances l := by
  induction l with
  | nil => intro ts balances; rfl
  | cons b rest ih =>
    intro ts balances
    simpa [initBalancesLoop, applyInitialBalances] using ih (ts + b.amount) _

/-- The transfer step touches balances and the transfer log only: the
receiver hook registrations survive `try_transfer_impl` unchanged. -/
theorem try_transfer_impl_receiverHashes (st : ContractState) (env : Env)
    (recipient : Addr) (amount : Nat) :
    ((try_transfer_impl st env recipient amount).snd).receiverHashes
      = st.receiverHashes := by
  unfold try_transfer_impl
  dsimp only
  split
  · rfl
  · split
    · rfl
    · simp [storeTransfer]

/-! ## Claims -/

/-- Claim C1 (amended): a `perform_transfer` that fails with
insufficient funds leaves the balance store exactly as it was; a
`perform_transfer` that fails with the credit-side overflow involves
two distinct accounts, leaves the recipient balance unchanged, but
leaves the sender balance already debited by the (positive) amount,
because the debit write precedes the overflow check. -/
theorem claim_C1 (balances : Addr → Nat) (fromAddr toAddr : Addr) (amount : Nat)
    (hrep : ∀ a, balances a < U128_BOUND) :
    (∀ b r, (perform_transfer balances fromAddr toAddr amount).fst
        = .error (.insufficientFunds b r) →
      (perform_transfer balances fromAddr toAddr amount).snd = balances)
    ∧ ((perform_transfer balances fromAddr toAddr amount).fst = .error .balanceOverflow →
      fromAddr ≠ toAddr
      ∧ (perform_transfer balances fromAddr toAddr amount).snd toAddr = balances toAddr
      ∧ (perform_transfer balances fromAddr toAddr amount).snd fromAddr
          = balances fromAddr - amount
      ∧ amount ≤ balances fromAddr ∧ 0 < amount) := by
  constructor
  · intro b r h
    exact perform_transfer_insufficient balances fromAddr toAddr amount b r h
  · intro h
    obtain ⟨hne, _, hto, hfrom, hle, hpos⟩ :=
      perform_transfer_overflow balances fromAddr toAddr amount hrep h
    exact ⟨hne, hto, hfrom, hle, hpos⟩

/-- Witness for claim C1 at a concrete store: account 0 holds 3 units,
a transfer of 5 fails with insufficient funds and changes nothing. -/
theorem claim_C1_witness : (perform_transfer w1bal 0 1 5).snd = w1bal :=
  (claim_C1 w1bal 0 1 5
    (by intro a; simp only [w1bal, updateFn]; split <;> decide)).1 3 5 (by decide)

/-- Counterexample to claim C1 as stated: with 100 units at account 0
and the maximal `u128` value at account 1, a transfer of 100 from 0 to
1 fails with the overflow error, yet the balance of account 0 has
changed from 100 to 0. -/
theorem claim_C1_counterexample :
    (perform_transfer cb0 0 1 100).fst = .error .balanceOverflow
    ∧ cb0 0 = 100
    ∧ (perform_transfer cb0 0 1 100).snd 0 = 0 := by decide

/-- Claim C2 (amended): when the allowance check of `try_transfer_from`
passes and any later step fails (insufficient funds, overflow, or the
constants read), the allowance entry of (owner, sender) in the
resulting store has nonetheless been decremented by the requested
amount, because the allowance write precedes the balance transfer. -/
theorem claim_C2 (st : ContractState) (env : Env) (owner recipient : Addr)
    (amount : Nat)
    (hallow : amount ≤ readAllowance st owner env.messageSender) :
    ∀ e, (try_transfer_from st env owner recipient amount).fst = .error e →
      readAllowance (try_transfer_from st env owner recipient amount).snd
          owner env.messageSender
        = readAllowance st owner env.messageSender - amount := by
  intro e h
  have hlt : ¬ readAllowance st owner env.messageSender < amount := by omega
  have hal := try_transfer_from_allowances st env owner recipient amount hlt
  show ((try_transfer_from st env owner recipient amount).snd).allowances
      owner env.messageSender = _
  rw [hal]
  simp [updateFn2]

/-- Counterexample to claim C2 as stated: owner 0 granted spender 1 an
allowance of 50 but holds no balance; a transfer-from of 50 fails with
insufficient funds, yet the allowance entry has changed from 50 to 0. -/
theorem claim_C2_counterexample :
    (try_transfer_from c2st c2env 0 2 50).fst = .error (.insufficientFunds 0 50)
    ∧ readAllowance c2st 0 1 = 50
    ∧ readAllowance (try_transfer_from c2st c2env 0 2 50).snd 0 1 = 0 := by decide

/-- Witness for claim C2 at the same concrete store. -/
theorem claim_C2_witness :
    readAllowance (try_transfer_from c2st c2env 0 2 50).snd 0 1
      = readAllowance c2st 0 1 - 50 :=
  claim_C2 c2st c2env 0 2 50 (by decide) (.insufficientFunds 0 50) (by decide)

/-- Claim C3 (amended): an init request whose name, symbol or decimals
field is malformed returns one of the three validation errors and
writes neither constants nor total supply, but the initial balance
entries have already been written to storage when the validation runs,
because the balance loop precedes the checks. -/
theorem claim_C3 (st : ContractState) (msg : InitMsg)
    (hbad : is_valid_name msg.name = false ∨ is_valid_symbol msg.symbol = false
      ∨ msg.decimals > 18) :
    (∃ e, (init st msg).fst = .error e
      ∧ (e = .invalidName ∨ e = .invalidSymbol ∨ e = .invalidDecimals))
    ∧ (init st msg).snd.constants = st.constants
    ∧ (init st msg).snd.totalSupply = st.totalSupply
    ∧ (init st msg).snd.balances = applyInitialBalances st.balances msg.initialBalances := by
  unfold init
  rcases hn : is_valid_name msg.name with _ | _
  · simp [initBalancesLoop_balances]
  · rcases hs : is_valid_symbol msg.symbol with _ | _
    · simp [initBalancesLoop_balances]
    · have hd : msg.decimals > 18 := by
        rcases hbad with h | h | h
        · rw [hn] at h; cases h
        · rw [hs] at h; cases h
        · exact h
      simp [hd, initBalancesLoop_balances]

/-- Counterexample to claim C3 as stated: an init with a 2-byte name
and one initial balance entry of 5 units at account 7 is rejected with
the name validation error, yet the balance entry of account 7 has
changed from 0 to 5. -/
theorem claim_C3_counterexample :
    (init emptyState c3msg).fst = .error .invalidName
    ∧ emptyState.balances 7 = 0
    ∧ (init emptyState c3msg).snd.balances 7 = 5 := by decide

/-- Witness for claim C3 at the same concrete request. -/
theorem claim_C3_witness :
    (init emptyState c3msg).snd.balances
      = applyInitialBalances emptyState.balances c3msg.initialBalances :=
  (claim_C3 emptyState c3msg (Or.inl (by decide))).2.2.2

/-- Claim C4, evaluated at the failing input: a valid init whose
initial balance list repeats account 0 with amounts 100 and 50
succeeds and stores a total supply of 150, while the balance map holds
only the last write of 50 at account 0 and zero elsewhere, so the sum
of all balance entries is 50 and the conservation invariant is broken
at the very first observable point. -/
theorem claim_C4 :
    (init emptyState c4msg).fst = .ok ()
    ∧ (init emptyState c4msg).snd.totalSupply = 150
    ∧ (init emptyState c4msg).snd.balances 0 = 50
    ∧ (init emptyState c4msg).snd.balances = updateFn (fun _ => 0) 0 50 := by
  refine ⟨by decide, by decide, by decide, ?_⟩
  have hb : (init emptyState c4msg).snd.balances
      = updateFn (updateFn (fun _ => 0) 0 100) 0 50 := rfl
  rw [hb]
  funext a
  by_cases h : a = 0 <;> simp [updateFn, h]

/-- Claim C5: `perform_transfer` fails with the insufficient-funds
error exactly when the sender balance is below the amount, and in that
case the balance store is returned untouched. -/
theorem claim_C5 (balances : Addr → Nat) (fromAddr toAddr : Addr) (amount : Nat) :
    ((∃ b r, (perform_transfer balances fromAddr toAddr amount).fst
        = .error (.insufficientFunds b r)) ↔ balances fromAddr < amount)
    ∧ (balances fromAddr < amount →
        (perform_transfer balances fromAddr toAddr amount).snd = balances) := by
  constructor
  · exact perform_transfer_insufficient_iff balances fromAddr toAddr amount
  · intro hlt
    unfold perform_transfer accountAmount
    simp [hlt]

/-- Witness for claim C5 on the fresh store: a transfer of 5 from the
zero-balance account 0 leaves the store untouched. -/
theorem claim_C5_witness :
    (perform_transfer emptyState.balances 0 1 5).snd = emptyState.balances :=
  (claim_C5 emptyState.balances 0 1 5).2 (by decide)

/-- Claim C6: a `try_transfer_from` whose allowance is below the
amount fails with the insufficient-allowance error and mutates
nothing; a successful one leaves the allowance entry reduced by
exactly the amount, which, the values being natural numbers, can never
be negative. -/
theorem claim_C6 (st : ContractState) (env : Env) (owner recipient : Addr)
    (amount : Nat) :
    (readAllowance st owner env.messageSender < amount →
      (try_transfer_from st env owner recipient amount).fst
        = .error (.insufficientAllowance (readAllowance st owner env.messageSender) amount)
      ∧ (try_transfer_from st env owner recipient amount).snd = st)
    ∧ (∀ res, (try_transfer_from st env owner recipient amount).fst = .ok res →
        readAllowance (try_transfer_from st env owner recipient amount).snd
            owner env.messageSender + amount
          = readAllowance st owner env.messageSender) := by
  constructor
  · intro hlt
    constructor
    · unfold try_transfer_from
      simp [hlt]
    · unfold try_transfer_from
      simp [hlt]
  · intro res hok
    by_cases hlt : readAllowance st owner env.messageSender < amount
    · unfold try_transfer_from at hok
      simp [hlt] at hok
    · have hal := try_transfer_from_allowances st env owner recipient amount hlt
      have hread : readAllowance (try_transfer_from st env owner recipient amount).snd
          owner env.messageSender
          = readAllowance st owner env.messageSender - amount := by
        show ((try_transfer_from st env owner recipient amount).snd).allowances
            owner env.messageSender = _
        rw [hal]
        simp [updateFn2]
      omega

/-- Witness for claim C6: spending 30 of an allowance of 50 leaves an
allowance of 20. -/
theorem claim_C6_witness :
    readAllowance (try_transfer_from c6st c6env 0 2 30).snd 0 1 + 30
      = readAllowance c6st 0 1 :=
  (claim_C6 c6st c6env 0 2 30).2 ⟨[], none⟩ (by decide)

/-- Claim C7: a query for an account with no stored viewing key (whose
candidate fails the dummy check) and a query for an account with a
stored key but a wrong candidate both return the same fixed denial
body, byte for byte, so the two failure causes are indistinguishable
from the response. -/
theorem claim_C7 (st1 : ContractState) (m1 : QueryMsg) (a1 : Addr) (k1 : List Nat)
    (st2 : ContractState) (m2 : QueryMsg) (a2 : Addr) (k2 : List Nat) (ek : List Nat)
    (hp1 : m1.getValidationParams = (a1, k1))
    (hp2 : m2.getValidationParams = (a2, k2))
    (h1 : readViewingKey st1 a1 = none)
    (hd : checkViewingKey k1 dummyKey = false)
    (h2 : readViewingKey st2 a2 = some ek)
    (hk : checkViewingKey k2 ek = false) :
    query st1 m1 = some (.ok wrongKeyResponse)
    ∧ query st2 m2 = some (.ok wrongKeyResponse)
    ∧ query st1 m1 = query st2 m2 := by
  have q1 : query st1 m1 = some (.ok wrongKeyResponse) := by
    unfold query
    rw [hp1]
    simp [h1, hd]
  have q2 : query st2 m2 = some (.ok wrongKeyResponse) := by
    unfold query
    rw [hp2]
    simp [h2, hk]
  exact ⟨q1, q2, by rw [q1, q2]⟩

/-- Witness for claim C7: the no-key denial on the fresh store equals
the wrong-key denial on a store holding key `[5, 5]` for account 0. -/
theorem claim_C7_witness :
    query emptyState (.balance 0 [1]) = query c7st (.balance 0 [9]) :=
  (claim_C7 emptyState (.balance 0 [1]) 0 [1] c7st (.balance 0 [9]) 0 [9] [5, 5]
    rfl rfl (by decide) (by decide) (by decide) (by decide)).2.2

/-- Claim C8: every successful handle response carries a data body
whose length is a multiple of the 256-byte response block size. -/
theorem claim_C8 (st : ContractState) (env : Env) (msg : HandleMsg)
    (res : HandleResponse)
    (hok : (handle st env msg).fst = .ok res) :
    ∀ d, res.data = some d → d.length % RESPONSE_BLOCK_SIZE = 0 := by
  intro d hd
  unfold handle at hok
  rcases hdp : handleDispatch st env msg with ⟨resp, st2⟩
  rw [hdp] at hok
  rcases resp with e | r
  · simp [Except.map] at hok
  · simp [Except.map] at hok
    rw [← hok] at hd
    simp [Option.map_eq_some'] at hd
    obtain ⟨d0, _, hpad⟩ := hd
    rw [← hpad]
    exact spacePad_length_mod d0

/-- Witness for claim C8 on a concrete successful request: the padded
body of a register-receive success has length divisible by 256. -/
theorem claim_C8_witness :
    (spacePad RESPONSE_BLOCK_SIZE
      (toBinaryAnswer (.registerReceive .success))).length % RESPONSE_BLOCK_SIZE = 0 :=
  claim_C8 emptyState c8env (.registerReceive "h")
    ⟨[], some (spacePad RESPONSE_BLOCK_SIZE (toBinaryAnswer (.registerReceive .success)))⟩
    (by decide)
    (spacePad RESPONSE_BLOCK_SIZE (toBinaryAnswer (.registerReceive .success))) rfl

/-- Claim C9: a successful send reports the send-success body; when no
receiver hook is registered for the recipient the effect list is
empty, and when one is registered the effect list is exactly one
callback invocation addressed to the recipient carrying the payload. -/
theorem claim_C9 (st : ContractState) (env : Env) (recipient : Addr)
    (amount : Nat) (msg : List Nat) (res : HandleResponse)
    (hok : (try_send st env recipient amount msg).fst = .ok res) :
    res.data = some (toBinaryAnswer (.send .success))
    ∧ (st.receiverHashes recipient = none → res.messages = [])
    ∧ (∀ h, st.receiverHashes recipient = some h →
        res.messages = [CosmosMsg.wasmExecute msg h recipient []]) := by
  unfold try_send at hok
  rcases hti : try_transfer_impl st env recipient amount with ⟨r, st2⟩
  rw [hti] at hok
  have hrh : st2.receiverHashes = st.receiverHashes := by
    have h := try_transfer_impl_receiverHashes st env recipient amount
    rw [hti] at h
    exact h
  rcases r with e | u
  · simp at hok
  · rcases u
    rcases hr : getReceiverHash st2 recipient with _ | hsh
    · simp [hr] at hok
      unfold getReceiverHash at hr
      rw [hrh] at hr
      refine ⟨by rw [← hok], fun _ => by rw [← hok], fun h hh => ?_⟩
      rw [hr] at hh
      cases hh
    · simp [hr] at hok
      unfold getReceiverHash at hr
      rw [hrh] at hr
      refine ⟨by rw [← hok], fun hn => ?_, fun h hh => ?_⟩
      · rw [hr] at hn
        cases hn
      · rw [hr] at hh
        injection hh with hh
        rw [← hok, ← hh]

/-- Witness for claim C9: a successful send of 5 units to the hooked
account 1 returns exactly one callback effect addressed to it. -/
theorem claim_C9_witness :
    c9res.messages = [CosmosMsg.wasmExecute [9] "hash" 1 []] :=
  (claim_C9 c9st c8env 1 5 [9] c9res (by decide)).2.2 "hash" (by decide)

/-- Claim C10 (amended): `query` reaches the unwrap of a missing
stored key, and thus the panic, exactly when no key is stored for the
requested account and the candidate verifies against the fixed
all-zero dummy value; for every other request the authentication path
is total. -/
theorem claim_C10 (st : ContractState) (m : QueryMsg) (a : Addr) (k : List Nat)
    (hp : m.getValidationParams = (a, k)) :
    (query st m = none
      ↔ (readViewingKey st a = none ∧ checkViewingKey k dummyKey = true)) := by
  unfold query
  rw [hp]
  rcases hvk : readViewingKey st a with _ | ek
  · rcases hd : checkViewingKey k dummyKey with _ | _
    · simp [hvk, hd]
    · simp [hvk, hd]
  · rcases hc : checkViewingKey k ek with _ | _
    · simp [hvk, hc]
    · simp [hvk, hc]

/-- Counterexample to claim C10 as stated: on the fresh store, account
0 has no stored key and the all-zero candidate verifies against the
all-zero dummy, and the balance query evaluates the unwrap of the
missing key: the embedded result is the panic value. -/
theorem claim_C10_counterexample :
    readViewingKey emptyState 0 = none
    ∧ checkViewingKey dummyKey dummyKey = true
    ∧ query emptyState (.balance 0 dummyKey) = none := by decide

/-- Witness for claim C10: a candidate failing the dummy check cannot
make the fresh-store query panic. -/
theorem claim_C10_witness :
    ¬ query emptyState (.balance 0 [1]) = none := fun h =>
  absurd ((claim_C10 emptyState (.balance 0 [1]) 0 [1] rfl).mp h).2 (by decide)
